import Mathlib

/-!
Shallow embedding of the fuzzy-inference classifier of `src/aqi_sensor_app.tsx`
(the AirGuard AQI sensor application).  The classifier core consists of

* three membership evaluators (`aqiMembership`, `tempMembership`,
  `humidityMembership`),
* the rule aggregation producing the six activation strengths
  (`ruleConditions`, inlined in `getEnvironmentCondition` in the source),
* the defuzzifier, a `reduce` over the entries of the activation object with
  the label `moderate` and the value 0 as initial accumulator and a strict
  greater-than comparison, and
* the presentation lookup `getConditionDetails`, a bracket lookup on a plain
  object literal — so it can also resolve keys inherited from the object
  prototype — with a fallback to the `moderate` entry on falsy misses.

Numbers are modelled as rationals: every constant in the source is decimal,
and all arithmetic used by the core is exact on ℚ.
-/

/-- AQI-deviation membership vector: `{excellent, good, moderate, poor, hazardous}`. -/
structure AqiScores where
  excellent : ℚ
  good : ℚ
  moderate : ℚ
  poor : ℚ
  hazardous : ℚ

/-- Temperature membership vector: `{cold, comfortable, warm, hot}`. -/
structure TempScores where
  cold : ℚ
  comfortable : ℚ
  warm : ℚ
  hot : ℚ

/-- Humidity membership vector: `{dry, comfortable, humid, veryHumid}`. -/
structure HumidityScores where
  dry : ℚ
  comfortable : ℚ
  humid : ℚ
  veryHumid : ℚ

/-- The six-entry activation vector produced by the rule aggregation
(`conditions` object literal in the source, in its key order). -/
structure Conditions where
  excellent : ℚ
  good : ℚ
  suitable : ℚ
  moderate : ℚ
  poor : ℚ
  hazardous : ℚ

/-- The six output condition labels. -/
inductive Condition where
  | excellent
  | good
  | suitable
  | moderate
  | poor
  | hazardous
deriving DecidableEq

/-- First arm of the AQI `moderate` entry: `Math.min(1, (absDeviation - 30) / 30)`,
taken when `30 ≤ absDeviation < 80`. -/
def aqiModerateIn (a : ℚ) : ℚ := min 1 ((a - 30) / 30)

/-- Second arm of the AQI `moderate` entry:
`Math.max(0, 1 - Math.abs(absDeviation - 65) / 35)`. -/
def aqiModerateOut (a : ℚ) : ℚ := max 0 (1 - |a - 65| / 35)

/-- First arm of the AQI `poor` entry: `Math.min(1, (absDeviation - 70) / 50)`,
taken when `70 ≤ absDeviation < 150`. -/
def aqiPoorIn (a : ℚ) : ℚ := min 1 ((a - 70) / 50)

/-- Second arm of the AQI `poor` entry:
`Math.max(0, 1 - Math.abs(absDeviation - 120) / 50)`. -/
def aqiPoorOut (a : ℚ) : ℚ := max 0 (1 - |a - 120| / 50)

/-- `fuzzyLogic.aqiMembership` from the source: membership degrees of the
absolute gas-sensor deviation. -/
def aqiMembership (deviation : ℚ) : AqiScores :=
  let absDeviation := |deviation|
  { excellent := max 0 (1 - absDeviation / 20)
    good := if absDeviation < 20 then max 0 (absDeviation / 20)
            else max 0 (1 - (absDeviation - 20) / 30)
    moderate := if 30 ≤ absDeviation ∧ absDeviation < 80 then aqiModerateIn absDeviation
                else aqiModerateOut absDeviation
    poor := if 70 ≤ absDeviation ∧ absDeviation < 150 then aqiPoorIn absDeviation
            else aqiPoorOut absDeviation
    hazardous := min 1 (max 0 ((absDeviation - 130) / 70)) }

/-- Below-range arm of the temperature `comfortable` entry:
`Math.max(0, (temp - 10) / 8)`, taken when `temp < 18`. -/
def tempComfBelow (t : ℚ) : ℚ := max 0 ((t - 10) / 8)

/-- Above-range arm of the temperature `comfortable` entry:
`Math.max(0, 1 - (temp - 26) / 8)`, taken when `temp > 26`. -/
def tempComfAbove (t : ℚ) : ℚ := max 0 (1 - (t - 26) / 8)

/-- `fuzzyLogic.tempMembership` from the source: membership degrees of the
temperature in Celsius. -/
def tempMembership (temp : ℚ) : TempScores :=
  { cold := max 0 (1 - (temp - 10) / 10)
    comfortable := if 18 ≤ temp ∧ temp ≤ 26 then 1
                   else if temp < 18 then tempComfBelow temp
                   else tempComfAbove temp
    warm := if 24 ≤ temp ∧ temp ≤ 32 then min 1 ((temp - 24) / 4)
            else max 0 (1 - |temp - 28| / 8)
    hot := min 1 (max 0 ((temp - 30) / 10)) }

/-- Below-range arm of the humidity `comfortable` entry:
`Math.max(0, humidity / 30)`, taken when `humidity < 30`. -/
def humComfBelow (h : ℚ) : ℚ := max 0 (h / 30)

/-- Above-range arm of the humidity `comfortable` entry:
`Math.max(0, 1 - (humidity - 60) / 20)`, taken when `humidity > 60`. -/
def humComfAbove (h : ℚ) : ℚ := max 0 (1 - (h - 60) / 20)

/-- `fuzzyLogic.humidityMembership` from the source: membership degrees of the
relative humidity percentage. -/
def humidityMembership (humidity : ℚ) : HumidityScores :=
  { dry := max 0 (1 - humidity / 30)
    comfortable := if 30 ≤ humidity ∧ humidity ≤ 60 then 1
                   else if humidity < 30 then humComfBelow humidity
                   else humComfAbove humidity
    humid := if 50 ≤ humidity ∧ humidity ≤ 80 then min 1 ((humidity - 50) / 15)
             else max 0 (1 - |humidity - 65| / 25)
    veryHumid := min 1 (max 0 ((humidity - 70) / 20)) }

/-- The `conditions` object computed inside `getEnvironmentCondition`:
rule-based inference combining the three membership vectors.
Variadic `Math.min(x, y, z)` / `Math.max(x, y, z)` are right-nested binary
`min` / `max`. -/
def ruleConditions (a : AqiScores) (t : TempScores) (h : HumidityScores) : Conditions :=
  { excellent := min a.excellent (min t.comfortable h.comfortable)
    good := max (min a.good t.comfortable)
                (min a.excellent (max t.warm h.humid))
    suitable := max (min a.moderate t.comfortable)
                    (min a.good (max t.warm t.cold))
    moderate := max a.moderate
                    (max (min a.good (max h.humid h.dry))
                         (min t.hot h.veryHumid))
    poor := max a.poor (min a.moderate (max t.hot h.veryHumid))
    hazardous := max a.hazardous (min a.poor (min t.hot h.veryHumid)) }

/-- Spec-side fuzzy AND of two operands: the minimum. -/
def fuzzyAnd (x y : ℚ) : ℚ := min x y

/-- Spec-side fuzzy AND of three operands: the minimum of the three values. -/
def fuzzyAnd3 (x y z : ℚ) : ℚ := min x (min y z)

/-- Spec-side fuzzy OR of two operands: the maximum. -/
def fuzzyOr (x y : ℚ) : ℚ := max x y

/-- Spec-side fuzzy OR of three operands: the maximum of the three values. -/
def fuzzyOr3 (x y z : ℚ) : ℚ := max x (max y z)

/-- The rule set exactly as the specification states it, written with the
fuzzy AND (min) and fuzzy OR (max) combinators of the spec. -/
def ruleSpecConditions (a : AqiScores) (t : TempScores) (h : HumidityScores) : Conditions :=
  { excellent := fuzzyAnd3 a.excellent t.comfortable h.comfortable
    good := fuzzyOr (fuzzyAnd a.good t.comfortable)
                    (fuzzyAnd a.excellent (fuzzyOr t.warm h.humid))
    suitable := fuzzyOr (fuzzyAnd a.moderate t.comfortable)
                        (fuzzyAnd a.good (fuzzyOr t.warm t.cold))
    moderate := fuzzyOr3 a.moderate
                         (fuzzyAnd a.good (fuzzyOr h.humid h.dry))
                         (fuzzyAnd t.hot h.veryHumid)
    poor := fuzzyOr a.poor (fuzzyAnd a.moderate (fuzzyOr t.hot h.veryHumid))
    hazardous := fuzzyOr a.hazardous (fuzzyAnd3 a.poor t.hot h.veryHumid) }

/-- `Object.entries(conditions)`: the six `(label, value)` pairs in the
insertion order of the `conditions` object literal. -/
def entries (c : Conditions) : List (Condition × ℚ) :=
  [(Condition.excellent, c.excellent), (Condition.good, c.good),
   (Condition.suitable, c.suitable), (Condition.moderate, c.moderate),
   (Condition.poor, c.poor), (Condition.hazardous, c.hazardous)]

/-- One step of the `reduce`: keep the candidate when its value strictly
exceeds the accumulated best value, keep the accumulator otherwise. -/
def step (best cand : Condition × ℚ) : Condition × ℚ :=
  if best.2 < cand.2 then cand else best

/-- The defuzzifier: `reduce` over the entries of the activation object with
the pair of the label `moderate` and the value 0 as initial accumulator,
returning the final label. -/
def defuzzify (c : Conditions) : Condition :=
  ((entries c).foldl step (Condition.moderate, 0)).1

/-- The maximal activation strength of an activation vector. -/
def maxVal (c : Conditions) : ℚ :=
  max c.excellent (max c.good (max c.suitable (max c.moderate (max c.poor c.hazardous))))

/-- The activation strength attached to a given label. -/
def activationOf (c : Conditions) : Condition → ℚ
  | Condition.excellent => c.excellent
  | Condition.good => c.good
  | Condition.suitable => c.suitable
  | Condition.moderate => c.moderate
  | Condition.poor => c.poor
  | Condition.hazardous => c.hazardous

/-- Spec-side selector: the earliest label in the canonical order
`excellent, good, suitable, moderate, poor, hazardous` among the labels that
attain the maximal activation value: `excellent` iff its value is ≥ every
other value; otherwise `good` iff its value is ≥ every later value (then
`good` attains the maximum and `excellent` does not); and so on. -/
def earliestMax (c : Conditions) : Condition :=
  if c.good ≤ c.excellent ∧ c.suitable ≤ c.excellent ∧ c.moderate ≤ c.excellent ∧
     c.poor ≤ c.excellent ∧ c.hazardous ≤ c.excellent then Condition.excellent
  else if c.suitable ≤ c.good ∧ c.moderate ≤ c.good ∧ c.poor ≤ c.good ∧
          c.hazardous ≤ c.good then Condition.good
  else if c.moderate ≤ c.suitable ∧ c.poor ≤ c.suitable ∧
          c.hazardous ≤ c.suitable then Condition.suitable
  else if c.poor ≤ c.moderate ∧ c.hazardous ≤ c.moderate then Condition.moderate
  else if c.hazardous ≤ c.poor then Condition.poor
  else Condition.hazardous

/-- `getEnvironmentCondition` from the source: the full pipeline from the raw
gas value, baseline, temperature and humidity to the final condition label. -/
def getEnvironmentCondition (mq135Raw baseline temp humidity : ℚ) : Condition :=
  let deviation := mq135Raw - baseline
  let aqiScores := aqiMembership deviation
  let tempScores := tempMembership temp
  let humidityScores := humidityMembership humidity
  defuzzify (ruleConditions aqiScores tempScores humidityScores)

/-- The three intermediate membership vectors together with the activation
vector, as exposed for diagnostics. -/
def pipelineVectors (mq135Raw baseline temp humidity : ℚ) :
    AqiScores × TempScores × HumidityScores × Conditions :=
  let deviation := mq135Raw - baseline
  let aqiScores := aqiMembership deviation
  let tempScores := tempMembership temp
  let humidityScores := humidityMembership humidity
  (aqiScores, tempScores, humidityScores, ruleConditions aqiScores tempScores humidityScores)

/-- One presentation entry of the `details` table in `getConditionDetails`. -/
structure ConditionDetails where
  label : String
  color : String
  textColor : String
  bgColor : String
  message : String
deriving DecidableEq

/-- The `excellent` entry of the `details` table. -/
def detailsExcellent : ConditionDetails :=
  { label := "Excellent"
    color := "from-green-500 to-emerald-500"
    textColor := "text-green-600"
    bgColor := "bg-green-50"
    message := "Perfect air quality and climate conditions" }

/-- The `good` entry of the `details` table. -/
def detailsGood : ConditionDetails :=
  { label := "Good"
    color := "from-blue-500 to-cyan-500"
    textColor := "text-blue-600"
    bgColor := "bg-blue-50"
    message := "Air quality is acceptable and conditions are pleasant" }

/-- The `suitable` entry of the `details` table. -/
def detailsSuitable : ConditionDetails :=
  { label := "Suitable"
    color := "from-teal-500 to-green-500"
    textColor := "text-teal-600"
    bgColor := "bg-teal-50"
    message := "Conditions are acceptable for most activities" }

/-- The `moderate` entry of the `details` table. -/
def detailsModerate : ConditionDetails :=
  { label := "Moderate"
    color := "from-yellow-500 to-orange-400"
    textColor := "text-yellow-700"
    bgColor := "bg-yellow-50"
    message := "Acceptable but may affect sensitive individuals" }

/-- The `poor` entry of the `details` table. -/
def detailsPoor : ConditionDetails :=
  { label := "Poor"
    color := "from-orange-500 to-red-500"
    textColor := "text-orange-600"
    bgColor := "bg-orange-50"
    message := "Consider limiting outdoor exposure" }

/-- The `hazardous` entry of the `details` table. -/
def detailsHazardous : ConditionDetails :=
  { label := "Hazardous"
    color := "from-red-600 to-red-800"
    textColor := "text-red-700"
    bgColor := "bg-red-50"
    message := "Health warning! Avoid outdoor activities" }

/-- String keys that a bracket lookup on a plain object literal resolves on
the prototype chain: the standard members of `Object.prototype` (its methods
together with the accessor properties of Annex B).  For each of these keys the
looked-up value is a function — or, for the dunder-proto accessor, the
prototype object itself — and in particular truthy. -/
def objectPrototypeKeys : List String :=
  ["constructor", "hasOwnProperty", "isPrototypeOf", "propertyIsEnumerable",
   "toLocaleString", "toString", "valueOf", "__proto__", "__defineGetter__",
   "__defineSetter__", "__lookupGetter__", "__lookupSetter__"]

/-- Result of the lookup in `getConditionDetails`: either one of the six
`ConditionDetails` entries of the `details` table (also the fallback), or a
truthy value inherited from `Object.prototype`, identified by its key. -/
inductive DetailsResult where
  | entry : ConditionDetails → DetailsResult
  | inherited : String → DetailsResult
deriving DecidableEq

/-- `getConditionDetails` from the source: a bracket lookup in the `details`
object literal followed by a fallback to the `moderate` entry.  The lookup
first finds the six own keys of the literal; any other key is searched on the
prototype chain, so the keys in `objectPrototypeKeys` produce an inherited
truthy value and the fallback does not fire on them; every remaining key
yields a falsy miss and falls back to the `moderate` entry. -/
def getConditionDetails (condition : String) : DetailsResult :=
  if condition = "excellent" then DetailsResult.entry detailsExcellent
  else if condition = "good" then DetailsResult.entry detailsGood
  else if condition = "suitable" then DetailsResult.entry detailsSuitable
  else if condition = "moderate" then DetailsResult.entry detailsModerate
  else if condition = "poor" then DetailsResult.entry detailsPoor
  else if condition = "hazardous" then DetailsResult.entry detailsHazardous
  else if condition ∈ objectPrototypeKeys then DetailsResult.inherited condition
  else DetailsResult.entry detailsModerate

/-- C1: the rule aggregation computes the six activation strengths exactly by
the fixed rule set, with fuzzy AND as min over the operands and fuzzy OR as
max over the operands. -/
theorem ruleConditions_eq_ruleSpec (a : AqiScores) (t : TempScores) (h : HumidityScores) :
    ruleConditions a t h = ruleSpecConditions a t h := rfl

/-- C5, Scenario B: rawGasValue 306, baseline 200 (deviation 106),
temperature 26.70, humidity 52.00 produce the activation vector
`{excellent:0, good:0, suitable:0, moderate:0, poor:0.72, hazardous:0}` and
the condition `poor`. -/
theorem scenarioB :
    (pipelineVectors 306 200 26.70 52.00).2.2.2 = ⟨0, 0, 0, 0, 0.72, 0⟩ ∧
    getEnvironmentCondition 306 200 26.70 52.00 = Condition.poor := by
  have hdev : (306 : ℚ) - 200 = 106 := by norm_num
  have ha : aqiMembership 106 = ⟨0, 0, 0, 18/25, 0⟩ := by
    norm_num [aqiMembership, aqiModerateIn, aqiModerateOut, aqiPoorIn, aqiPoorOut,
      AqiScores.mk.injEq]
  have ht : tempMembership 26.70 = ⟨0, 73/80, 27/40, 0⟩ := by
    norm_num [tempMembership, tempComfBelow, tempComfAbove, TempScores.mk.injEq]
  have hh : humidityMembership 52.00 = ⟨0, 1, 2/15, 0⟩ := by
    norm_num [humidityMembership, humComfBelow, humComfAbove, HumidityScores.mk.injEq]
  have hr : ruleConditions ⟨0, 0, 0, 18/25, 0⟩ ⟨0, 73/80, 27/40, 0⟩ ⟨0, 1, 2/15, 0⟩ =
      ⟨0, 0, 0, 0, 0.72, 0⟩ := by
    norm_num [ruleConditions, Conditions.mk.injEq]
  have hd : defuzzify ⟨0, 0, 0, 0, 0.72, 0⟩ = Condition.poor := by
    norm_num [defuzzify, entries, step, List.foldl]
  constructor
  · simp only [pipelineVectors, hdev, ha, ht, hh, hr]
  · simp only [getEnvironmentCondition, hdev, ha, ht, hh, hr, hd]

/-- C6, Scenario A: deviation 0 (raw 0, baseline 0), temperature 22.0,
humidity 45.0 produce the activation vector
`{excellent:1, good:0.25, suitable:0, moderate:0, poor:0, hazardous:0}` and
the condition `excellent`. -/
theorem scenarioA :
    (pipelineVectors 0 0 22.0 45.0).2.2.2 = ⟨1, 0.25, 0, 0, 0, 0⟩ ∧
    getEnvironmentCondition 0 0 22.0 45.0 = Condition.excellent := by
  have hdev : (0 : ℚ) - 0 = 0 := by norm_num
  have ha : aqiMembership 0 = ⟨1, 0, 0, 0, 0⟩ := by
    norm_num [aqiMembership, aqiModerateIn, aqiModerateOut, aqiPoorIn, aqiPoorOut,
      AqiScores.mk.injEq]
  have ht : tempMembership 22.0 = ⟨0, 1, 1/4, 0⟩ := by
    norm_num [tempMembership, tempComfBelow, tempComfAbove, TempScores.mk.injEq]
  have hh : humidityMembership 45.0 = ⟨0, 1, 1/5, 0⟩ := by
    norm_num [humidityMembership, humComfBelow, humComfAbove, HumidityScores.mk.injEq]
  have hr : ruleConditions ⟨1, 0, 0, 0, 0⟩ ⟨0, 1, 1/4, 0⟩ ⟨0, 1, 1/5, 0⟩ =
      ⟨1, 0.25, 0, 0, 0, 0⟩ := by
    norm_num [ruleConditions, Conditions.mk.injEq]
  have hd : defuzzify ⟨1, 0.25, 0, 0, 0, 0⟩ = Condition.excellent := by
    norm_num [defuzzify, entries, step, List.foldl]
  constructor
  · simp only [pipelineVectors, hdev, ha, ht, hh, hr]
  · simp only [getEnvironmentCondition, hdev, ha, ht, hh, hr, hd]

/-- C8: the classifier depends on the raw gas value and the baseline only
through their difference — shifting both by the same amount changes neither
the intermediate vectors nor the resulting condition. -/
theorem shift_invariance (mq135Raw baseline temp humidity c : ℚ) :
    pipelineVectors (mq135Raw + c) (baseline + c) temp humidity =
      pipelineVectors mq135Raw baseline temp humidity ∧
    getEnvironmentCondition (mq135Raw + c) (baseline + c) temp humidity =
      getEnvironmentCondition mq135Raw baseline temp humidity := by
  have h : mq135Raw + c - (baseline + c) = mq135Raw - baseline := by ring
  constructor
  · simp only [pipelineVectors, h]
  · simp only [getEnvironmentCondition, h]

/-- C10: the classifier is symmetric in the sign of the deviation, because the
AQI membership vector is computed from the absolute deviation only. -/
theorem deviation_sign_symmetry (b d t h : ℚ) :
    getEnvironmentCondition (b + d) b t h = getEnvironmentCondition (b - d) b t h := by
  have h1 : b + d - b = d := by ring
  have h2 : b - d - b = -d := by ring
  have h3 : aqiMembership (-d) = aqiMembership d := by
    simp only [aqiMembership, abs_neg]
  simp only [getEnvironmentCondition, h1, h2, h3]

/-- C4: whenever the six activation strengths are all exactly 0, the pipeline
returns `moderate` — the initial best value 0 is never exceeded by the strict
greater-than comparison. -/
theorem all_zero_defaults_moderate (mq135Raw baseline temp humidity : ℚ)
    (h : ruleConditions (aqiMembership (mq135Raw - baseline)) (tempMembership temp)
          (humidityMembership humidity) = ⟨0, 0, 0, 0, 0, 0⟩) :
    getEnvironmentCondition mq135Raw baseline temp humidity = Condition.moderate := by
  simp only [getEnvironmentCondition, h]
  norm_num [defuzzify, entries, step, List.foldl]

/-- Witness for C4: at raw 0, baseline 0, temperature 0, humidity 0 all six
activation strengths are 0 and the pipeline returns `moderate`. -/
theorem all_zero_defaults_moderate_witness :
    ruleConditions (aqiMembership ((0 : ℚ) - 0)) (tempMembership 0) (humidityMembership 0) =
      ⟨0, 0, 0, 0, 0, 0⟩ ∧
    getEnvironmentCondition 0 0 0 0 = Condition.moderate := by
  have h : ruleConditions (aqiMembership ((0 : ℚ) - 0)) (tempMembership 0)
      (humidityMembership 0) = ⟨0, 0, 0, 0, 0, 0⟩ := by
    have ha : aqiMembership ((0 : ℚ) - 0) = ⟨1, 0, 0, 0, 0⟩ := by
      norm_num [aqiMembership, aqiModerateIn, aqiModerateOut, aqiPoorIn, aqiPoorOut,
        AqiScores.mk.injEq]
    have ht : tempMembership 0 = ⟨2, 0, 0, 0⟩ := by
      norm_num [tempMembership, tempComfBelow, tempComfAbove, TempScores.mk.injEq]
    have hh : humidityMembership 0 = ⟨1, 0, 0, 0⟩ := by
      norm_num [humidityMembership, humComfBelow, humComfAbove, HumidityScores.mk.injEq]
    rw [ha, ht, hh]
    norm_num [ruleConditions, Conditions.mk.injEq]
  exact ⟨h, all_zero_defaults_moderate 0 0 0 0 h⟩

/-- Counterexample for C7: at `absDeviation = 80` the two arms of the AQI
`moderate` membership disagree — the in-range arm gives 1 while the
out-of-range arm (the one the code takes at 80) gives 4/7. -/
theorem aqiModerate_branch_mismatch :
    aqiModerateIn 80 = 1 ∧ aqiModerateOut 80 = 4/7 ∧
    aqiModerateIn 80 ≠ aqiModerateOut 80 ∧
    (aqiMembership 80).moderate = 4/7 := by
  refine ⟨?_, ?_, ?_, ?_⟩
  · norm_num [aqiModerateIn]
  · norm_num [aqiModerateOut]
  · norm_num [aqiModerateIn, aqiModerateOut]
  · norm_num [aqiMembership, aqiModerateOut]

/-- C7 amended: the two arms agree at the breakpoints `30` (AQI moderate),
`70` (AQI poor), `18` and `26` (temperature comfortable), `30` and `60`
(humidity comfortable), but they disagree at `80` (AQI moderate: 1 vs 4/7)
and at `150` (AQI poor: 1 vs 2/5). -/
theorem boundary_continuity :
    aqiModerateIn 30 = aqiModerateOut 30 ∧
    aqiPoorIn 70 = aqiPoorOut 70 ∧
    tempComfBelow 18 = 1 ∧ tempComfAbove 26 = 1 ∧
    humComfBelow 30 = 1 ∧ humComfAbove 60 = 1 ∧
    aqiModerateIn 80 = 1 ∧ aqiModerateOut 80 = 4/7 ∧
    aqiPoorIn 150 = 1 ∧ aqiPoorOut 150 = 2/5 := by
  refine ⟨?_, ?_, ?_, ?_, ?_, ?_, ?_, ?_, ?_, ?_⟩ <;>
    norm_num [aqiModerateIn, aqiModerateOut, aqiPoorIn, aqiPoorOut,
      tempComfBelow, tempComfAbove, humComfBelow, humComfAbove]

/-- Counterexample for C9: the label `"toString"` is not one of the six
recognized condition labels, yet the lookup does not return the `moderate`
presentation entry — the bracket lookup finds the inherited truthy
`Object.prototype` member, so the fallback never fires. -/
theorem getConditionDetails_inherited_counterexample :
    "toString" ∉ ["excellent", "good", "suitable", "moderate", "poor", "hazardous"] ∧
    getConditionDetails "toString" = DetailsResult.inherited "toString" ∧
    getConditionDetails "toString" ≠ DetailsResult.entry detailsModerate := by
  refine ⟨by decide, by decide, by decide⟩

/-- C9 amended: the presentation lookup returns the matching entry on each of
the six recognized labels, and falls back to the `moderate` entry on every
other label that is not a property name inherited from `Object.prototype`;
on the inherited property names the lookup returns the inherited truthy value
instead of the `moderate` entry. -/
theorem getConditionDetails_spec (s : String)
    (h : s ∉ ["excellent", "good", "suitable", "moderate", "poor", "hazardous"])
    (hp : s ∉ objectPrototypeKeys) :
    getConditionDetails s = DetailsResult.entry detailsModerate ∧
    getConditionDetails "excellent" = DetailsResult.entry detailsExcellent ∧
    getConditionDetails "good" = DetailsResult.entry detailsGood ∧
    getConditionDetails "suitable" = DetailsResult.entry detailsSuitable ∧
    getConditionDetails "moderate" = DetailsResult.entry detailsModerate ∧
    getConditionDetails "poor" = DetailsResult.entry detailsPoor ∧
    getConditionDetails "hazardous" = DetailsResult.entry detailsHazardous := by
  simp only [List.mem_cons, List.mem_singleton, not_or] at h
  obtain ⟨h1, h2, h3, h4, h5, h6, -⟩ := h
  refine ⟨?_, by rfl, by rfl, by rfl, by rfl, by rfl, by rfl⟩
  simp only [getConditionDetails, if_neg h1, if_neg h2, if_neg h3, if_neg h4,
    if_neg h5, if_neg h6, if_neg hp]

/-- Witness for C9 amended: the label `"unknown"` is neither recognized nor
inherited and resolves to the `moderate` presentation entry, while the six
recognized labels resolve to their own entries. -/
theorem getConditionDetails_spec_witness :
    getConditionDetails "unknown" = DetailsResult.entry detailsModerate ∧
    getConditionDetails "excellent" = DetailsResult.entry detailsExcellent ∧
    getConditionDetails "good" = DetailsResult.entry detailsGood ∧
    getConditionDetails "suitable" = DetailsResult.entry detailsSuitable ∧
    getConditionDetails "moderate" = DetailsResult.entry detailsModerate ∧
    getConditionDetails "poor" = DetailsResult.entry detailsPoor ∧
    getConditionDetails "hazardous" = DetailsResult.entry detailsHazardous :=
  getConditionDetails_spec "unknown" (by decide) (by decide)

/-- Counterexample for C2: at temperature 0 the `cold` membership degree is 2,
outside the interval `[0,1]`. -/
theorem cold_degree_exceeds_one :
    (tempMembership 0).cold = 2 ∧ ¬ (tempMembership 0).cold ≤ 1 ∧
    (humidityMembership (-30)).dry = 2 ∧ ¬ (humidityMembership (-30)).dry ≤ 1 := by
  refine ⟨?_, ?_, ?_, ?_⟩ <;> norm_num [tempMembership, humidityMembership]

/-- Counterexample for C3: on the all-zero activation vector all six labels
share the maximal value 0, the earliest of them in canonical order is
`excellent`, yet the defuzzifier returns `moderate`. -/
theorem defuzzify_tie_counterexample :
    maxVal ⟨0, 0, 0, 0, 0, 0⟩ = 0 ∧
    earliestMax ⟨0, 0, 0, 0, 0, 0⟩ = Condition.excellent ∧
    defuzzify ⟨0, 0, 0, 0, 0, 0⟩ = Condition.moderate ∧
    Condition.moderate ≠ Condition.excellent := by
  refine ⟨?_, ?_, ?_, by decide⟩
  · norm_num [maxVal]
  · norm_num [earliestMax]
  · norm_num [defuzzify, entries, step, List.foldl]

/-- Helper: every AQI membership degree lies in `[0,1]`, for every deviation. -/
theorem aqiMembership_range (d : ℚ) :
    (0 ≤ (aqiMembership d).excellent ∧ (aqiMembership d).excellent ≤ 1) ∧
    (0 ≤ (aqiMembership d).good ∧ (aqiMembership d).good ≤ 1) ∧
    (0 ≤ (aqiMembership d).moderate ∧ (aqiMembership d).moderate ≤ 1) ∧
    (0 ≤ (aqiMembership d).poor ∧ (aqiMembership d).poor ≤ 1) ∧
    (0 ≤ (aqiMembership d).hazardous ∧ (aqiMembership d).hazardous ≤ 1) := by
  have habs : (0 : ℚ) ≤ |d| := abs_nonneg d
  simp only [aqiMembership, aqiModerateIn, aqiModerateOut, aqiPoorIn, aqiPoorOut]
  refine ⟨⟨le_max_left 0 _, ?_⟩, ⟨?_, ?_⟩, ⟨?_, ?_⟩, ⟨?_, ?_⟩, ⟨?_, ?_⟩⟩
  · exact max_le (by norm_num) (by linarith [div_nonneg habs (show (0:ℚ) ≤ 20 by norm_num)])
  · split_ifs <;> exact le_max_left 0 _
  · split_ifs with hlt
    · exact max_le (by norm_num) (by rw [div_le_one (by norm_num)]; linarith)
    · refine max_le (by norm_num) ?_
      have : (0 : ℚ) ≤ (|d| - 20) / 30 := div_nonneg (by linarith [not_lt.mp hlt]) (by norm_num)
      linarith
  · split_ifs with hm
    · exact le_min (by norm_num) (div_nonneg (by linarith [hm.1]) (by norm_num))
    · exact le_max_left 0 _
  · split_ifs with hm
    · exact min_le_left 1 _
    · refine max_le (by norm_num) ?_
      have : (0 : ℚ) ≤ |(|d| - 65)| / 35 := div_nonneg (abs_nonneg _) (by norm_num)
      linarith
  · split_ifs with hp
    · exact le_min (by norm_num) (div_nonneg (by linarith [hp.1]) (by norm_num))
    · exact le_max_left 0 _
  · split_ifs with hp
    · exact min_le_left 1 _
    · refine max_le (by norm_num) ?_
      have : (0 : ℚ) ≤ |(|d| - 120)| / 50 := div_nonneg (abs_nonneg _) (by norm_num)
      linarith
  · exact le_min (by norm_num) (le_max_left 0 _)
  · exact min_le_left 1 _

/-- Helper: every temperature membership degree is nonnegative, the
`comfortable`, `warm` and `hot` degrees never exceed 1, and the `cold` degree
stays below 1 as soon as the temperature is at least 10. -/
theorem tempMembership_range (t : ℚ) :
    (0 ≤ (tempMembership t).cold ∧ (t < 10 ∨ (tempMembership t).cold ≤ 1)) ∧
    (0 ≤ (tempMembership t).comfortable ∧ (tempMembership t).comfortable ≤ 1) ∧
    (0 ≤ (tempMembership t).warm ∧ (tempMembership t).warm ≤ 1) ∧
    (0 ≤ (tempMembership t).hot ∧ (tempMembership t).hot ≤ 1) := by
  simp only [tempMembership, tempComfBelow, tempComfAbove]
  refine ⟨⟨le_max_left 0 _, ?_⟩, ⟨?_, ?_⟩, ⟨?_, ?_⟩, ⟨?_, ?_⟩⟩
  · rcases lt_or_le t 10 with h | h
    · exact Or.inl h
    · refine Or.inr (max_le (by norm_num) ?_)
      have : (0 : ℚ) ≤ (t - 10) / 10 := div_nonneg (by linarith) (by norm_num)
      linarith
  · split_ifs <;> norm_num
  · split_ifs with h1 h2
    · norm_num
    · refine max_le (by norm_num) ?_
      rw [div_le_one (by norm_num)]
      linarith
    · have h3 : 18 ≤ t := not_lt.mp h2
      have h4 : ¬ t ≤ 26 := not_and.mp h1 h3
      refine max_le (by norm_num) ?_
      have : (0 : ℚ) ≤ (t - 26) / 8 := div_nonneg (by linarith [not_le.mp h4]) (by norm_num)
      linarith
  · split_ifs with h
    · exact le_min (by norm_num) (div_nonneg (by linarith [h.1]) (by norm_num))
    · exact le_max_left 0 _
  · split_ifs with h
    · exact min_le_left 1 _
    · refine max_le (by norm_num) ?_
      have : (0 : ℚ) ≤ |t - 28| / 8 := div_nonneg (abs_nonneg _) (by norm_num)
      linarith
  · exact le_min (by norm_num) (le_max_left 0 _)
  · exact min_le_left 1 _

/-- Helper: every humidity membership degree is nonnegative, the
`comfortable`, `humid` and `veryHumid` degrees never exceed 1, and the `dry`
degree stays below 1 as soon as the humidity is nonnegative. -/
theorem humidityMembership_range (h : ℚ) :
    (0 ≤ (humidityMembership h).dry ∧ (h < 0 ∨ (humidityMembership h).dry ≤ 1)) ∧
    (0 ≤ (humidityMembership h).comfortable ∧ (humidityMembership h).comfortable ≤ 1) ∧
    (0 ≤ (humidityMembership h).humid ∧ (humidityMembership h).humid ≤ 1) ∧
    (0 ≤ (humidityMembership h).veryHumid ∧ (humidityMembership h).veryHumid ≤ 1) := by
  simp only [humidityMembership, humComfBelow, humComfAbove]
  refine ⟨⟨le_max_left 0 _, ?_⟩, ⟨?_, ?_⟩, ⟨?_, ?_⟩, ⟨?_, ?_⟩⟩
  · rcases lt_or_le h 0 with hh | hh
    · exact Or.inl hh
    · refine Or.inr (max_le (by norm_num) ?_)
      have : (0 : ℚ) ≤ h / 30 := div_nonneg hh (by norm_num)
      linarith
  · split_ifs <;> norm_num
  · split_ifs with h1 h2
    · norm_num
    · refine max_le (by norm_num) ?_
      rw [div_le_one (by norm_num)]
      linarith
    · have h3 : 30 ≤ h := not_lt.mp h2
      have h4 : ¬ h ≤ 60 := not_and.mp h1 h3
      refine max_le (by norm_num) ?_
      have : (0 : ℚ) ≤ (h - 60) / 20 := div_nonneg (by linarith [not_le.mp h4]) (by norm_num)
      linarith
  · split_ifs with hh
    · exact le_min (by norm_num) (div_nonneg (by linarith [hh.1]) (by norm_num))
    · exact le_max_left 0 _
  · split_ifs with hh
    · exact min_le_left 1 _
    · refine max_le (by norm_num) ?_
      have : (0 : ℚ) ≤ |h - 65| / 25 := div_nonneg (abs_nonneg _) (by norm_num)
      linarith
  · exact le_min (by norm_num) (le_max_left 0 _)
  · exact min_le_left 1 _

/-- Helper: the six activation strengths lie in `[0,1]` whenever every input
degree is nonnegative and the AQI degrees together with `t.comfortable`,
`t.warm`, `t.hot`, `h.comfortable`, `h.humid` and `h.veryHumid` are at most 1
(`t.cold` and `h.dry` only need to be nonnegative: each rule caps them by an
AQI degree). -/
theorem ruleConditions_range (a : AqiScores) (t : TempScores) (h : HumidityScores)
    (hae : 0 ≤ a.excellent ∧ a.excellent ≤ 1) (hag : 0 ≤ a.good ∧ a.good ≤ 1)
    (ham : 0 ≤ a.moderate ∧ a.moderate ≤ 1) (hap : 0 ≤ a.poor ∧ a.poor ≤ 1)
    (hah : 0 ≤ a.hazardous ∧ a.hazardous ≤ 1)
    ( _tcold : 0 ≤ t.cold) (htc : 0 ≤ t.comfortable ∧ t.comfortable ≤ 1)
    ( _tw : 0 ≤ t.warm ∧ t.warm ≤ 1) (hth : 0 ≤ t.hot ∧ t.hot ≤ 1)
    ( _hdry : 0 ≤ h.dry) (hhc : 0 ≤ h.comfortable ∧ h.comfortable ≤ 1)
    ( _hh : 0 ≤ h.humid ∧ h.humid ≤ 1) ( _hv : 0 ≤ h.veryHumid ∧ h.veryHumid ≤ 1) :
    (0 ≤ (ruleConditions a t h).excellent ∧ (ruleConditions a t h).excellent ≤ 1) ∧
    (0 ≤ (ruleConditions a t h).good ∧ (ruleConditions a t h).good ≤ 1) ∧
    (0 ≤ (ruleConditions a t h).suitable ∧ (ruleConditions a t h).suitable ≤ 1) ∧
    (0 ≤ (ruleConditions a t h).moderate ∧ (ruleConditions a t h).moderate ≤ 1) ∧
    (0 ≤ (ruleConditions a t h).poor ∧ (ruleConditions a t h).poor ≤ 1) ∧
    (0 ≤ (ruleConditions a t h).hazardous ∧ (ruleConditions a t h).hazardous ≤ 1) := by
  simp only [ruleConditions]
  refine ⟨⟨?_, ?_⟩, ⟨?_, ?_⟩, ⟨?_, ?_⟩, ⟨?_, ?_⟩, ⟨?_, ?_⟩, ⟨?_, ?_⟩⟩
  · exact le_min hae.1 (le_min htc.1 hhc.1)
  · exact le_trans (min_le_left _ _) hae.2
  · exact le_max_of_le_left (le_min hag.1 htc.1)
  · exact max_le (le_trans (min_le_left _ _) hag.2) (le_trans (min_le_left _ _) hae.2)
  · exact le_max_of_le_left (le_min ham.1 htc.1)
  · exact max_le (le_trans (min_le_left _ _) ham.2) (le_trans (min_le_left _ _) hag.2)
  · exact le_max_of_le_left ham.1
  · exact max_le ham.2
      (max_le (le_trans (min_le_left _ _) hag.2) (le_trans (min_le_left _ _) hth.2))
  · exact le_max_of_le_left hap.1
  · exact max_le hap.2 (le_trans (min_le_left _ _) ham.2)
  · exact le_max_of_le_left hah.1
  · exact max_le hah.2 (le_trans (min_le_left _ _) hap.2)

/-- C2 amended: for every deviation, temperature and humidity, every AQI
membership degree and every one of the six activation strengths lies in
`[0,1]`, and so does every temperature and humidity degree with the two
exceptions the formulas admit — `cold` may exceed 1 (only possible when the
temperature is below 10) and `dry` may exceed 1 (only possible when the
humidity is negative); all degrees are nonnegative and no external clamping
is applied anywhere. -/
theorem membership_activation_range (d t h : ℚ) :
    (0 ≤ (aqiMembership d).excellent ∧ (aqiMembership d).excellent ≤ 1) ∧
    (0 ≤ (aqiMembership d).good ∧ (aqiMembership d).good ≤ 1) ∧
    (0 ≤ (aqiMembership d).moderate ∧ (aqiMembership d).moderate ≤ 1) ∧
    (0 ≤ (aqiMembership d).poor ∧ (aqiMembership d).poor ≤ 1) ∧
    (0 ≤ (aqiMembership d).hazardous ∧ (aqiMembership d).hazardous ≤ 1) ∧
    (0 ≤ (tempMembership t).cold ∧ (t < 10 ∨ (tempMembership t).cold ≤ 1)) ∧
    (0 ≤ (tempMembership t).comfortable ∧ (tempMembership t).comfortable ≤ 1) ∧
    (0 ≤ (tempMembership t).warm ∧ (tempMembership t).warm ≤ 1) ∧
    (0 ≤ (tempMembership t).hot ∧ (tempMembership t).hot ≤ 1) ∧
    (0 ≤ (humidityMembership h).dry ∧ (h < 0 ∨ (humidityMembership h).dry ≤ 1)) ∧
    (0 ≤ (humidityMembership h).comfortable ∧ (humidityMembership h).comfortable ≤ 1) ∧
    (0 ≤ (humidityMembership h).humid ∧ (humidityMembership h).humid ≤ 1) ∧
    (0 ≤ (humidityMembership h).veryHumid ∧ (humidityMembership h).veryHumid ≤ 1) ∧
    (let c := ruleConditions (aqiMembership d) (tempMembership t) (humidityMembership h)
     (0 ≤ c.excellent ∧ c.excellent ≤ 1) ∧ (0 ≤ c.good ∧ c.good ≤ 1) ∧
     (0 ≤ c.suitable ∧ c.suitable ≤ 1) ∧ (0 ≤ c.moderate ∧ c.moderate ≤ 1) ∧
     (0 ≤ c.poor ∧ c.poor ≤ 1) ∧ (0 ≤ c.hazardous ∧ c.hazardous ≤ 1)) := by
  obtain ⟨ha1, ha2, ha3, ha4, ha5⟩ := aqiMembership_range d
  obtain ⟨ht1, ht2, ht3, ht4⟩ := tempMembership_range t
  obtain ⟨hh1, hh2, hh3, hh4⟩ := humidityMembership_range h
  refine ⟨ha1, ha2, ha3, ha4, ha5, ht1, ht2, ht3, ht4, hh1, hh2, hh3, hh4, ?_⟩
  exact ruleConditions_range _ _ _ ha1 ha2 ha3 ha4 ha5 ht1.1 ht2 ht3 ht4 hh1.1 hh2 hh3 hh4

/-- Helper: the accumulated value of one `reduce` step is the maximum of the
previous value and the candidate value. -/
theorem step_snd (b q : Condition × ℚ) : (step b q).2 = max b.2 q.2 := by
  unfold step
  split_ifs with h
  · exact (max_eq_right h.le).symm
  · exact (max_eq_left (not_lt.mp h)).symm

/-- Helper: the `reduce` leaves its accumulator unchanged when no candidate
value strictly exceeds the accumulated value. -/
theorem foldl_step_of_le (l : List (Condition × ℚ)) :
    ∀ b : Condition × ℚ, (∀ p ∈ l, p.2 ≤ b.2) → l.foldl step b = b := by
  induction l with
  | nil => intro b _; rfl
  | cons q l ih =>
      intro b hb
      have hq : q.2 ≤ b.2 := hb q (List.mem_cons_self q l)
      have hs : step b q = b := by unfold step; rw [if_neg (not_lt.mpr hq)]
      rw [List.foldl_cons, hs]
      exact ih b fun p hp => hb p (List.mem_cons_of_mem q hp)

/-- Helper: if every entry before `p` has value strictly below the value of
`p`, the accumulator starts strictly below it as well, and every entry after
`p` has value at most the value of `p`, then the `reduce` ends exactly at
`p`. -/
theorem foldl_step_reaches (l1 : List (Condition × ℚ)) :
    ∀ (l2 : List (Condition × ℚ)) (p b : Condition × ℚ),
      (∀ q ∈ l1, q.2 < p.2) → b.2 < p.2 → (∀ q ∈ l2, q.2 ≤ p.2) →
      (l1 ++ p :: l2).foldl step b = p := by
  induction l1 with
  | nil =>
      intro l2 p b _ hb h2
      rw [List.nil_append, List.foldl_cons]
      have hs : step b p = p := by unfold step; rw [if_pos hb]
      rw [hs]
      exact foldl_step_of_le l2 p h2
  | cons q l1 ih =>
      intro l2 p b h1 hb h2
      rw [List.cons_append, List.foldl_cons]
      have hq : q.2 < p.2 := h1 q (List.mem_cons_self q l1)
      have hsq : (step b q).2 < p.2 := by
        rw [step_snd]
        exact max_lt hb hq
      exact ih l2 p (step b q) (fun r hr => h1 r (List.mem_cons_of_mem q hr)) hsq h2

/-- C3 amended: the defuzzifier scans the six activations in canonical order
starting from the running best `(moderate, 0)` and replaces it only on a
strictly greater value; consequently, whenever the maximal activation value is
positive (in particular on every tie at a positive value), the label returned
is the earliest one in canonical order among those attaining the maximum.
(When the maximal value is 0 — e.g. the all-zero vector — the default
`moderate` is returned instead of the earliest maximal label.) -/
theorem defuzzify_eq_earliestMax (c : Conditions) (hpos : 0 < maxVal c) :
    defuzzify c = earliestMax c := by
  obtain ⟨e, g, s, m, p, z⟩ := c
  simp only [maxVal] at hpos
  simp only [defuzzify, entries, earliestMax]
  split_ifs with h1 h2 h3 h4 h5
  · -- excellent attains the maximum
    have hv : (0 : ℚ) < e := lt_of_lt_of_le hpos
      (max_le le_rfl (max_le h1.1 (max_le h1.2.1 (max_le h1.2.2.1
        (max_le h1.2.2.2.1 h1.2.2.2.2)))))
    have hfold : List.foldl step (Condition.moderate, 0)
        [(Condition.excellent, e), (Condition.good, g), (Condition.suitable, s),
         (Condition.moderate, m), (Condition.poor, p), (Condition.hazardous, z)] =
        (Condition.excellent, e) :=
      foldl_step_reaches [] _ (Condition.excellent, e) (Condition.moderate, 0)
        (fun q hq => absurd hq (List.not_mem_nil q)) hv
        (by intro q hq
            simp only [List.mem_cons, List.not_mem_nil, or_false] at hq
            rcases hq with rfl | rfl | rfl | rfl | rfl
            exacts [h1.1, h1.2.1, h1.2.2.1, h1.2.2.2.1, h1.2.2.2.2])
    rw [hfold]
  · -- good attains the maximum, excellent does not
    simp only [not_and_or, not_le] at h1
    have heg : e < g := by rcases h1 with h | h | h | h | h <;> linarith [h2.1, h2.2.1, h2.2.2.1, h2.2.2.2]
    have hv : (0 : ℚ) < g := lt_of_lt_of_le hpos
      (max_le heg.le (max_le le_rfl (max_le h2.1 (max_le h2.2.1
        (max_le h2.2.2.1 h2.2.2.2)))))
    have hfold : List.foldl step (Condition.moderate, 0)
        [(Condition.excellent, e), (Condition.good, g), (Condition.suitable, s),
         (Condition.moderate, m), (Condition.poor, p), (Condition.hazardous, z)] =
        (Condition.good, g) :=
      foldl_step_reaches [(Condition.excellent, e)] _ (Condition.good, g)
        (Condition.moderate, 0)
        (by intro q hq
            simp only [List.mem_singleton] at hq
            rcases hq with rfl
            exact heg)
        hv
        (by intro q hq
            simp only [List.mem_cons, List.not_mem_nil, or_false] at hq
            rcases hq with rfl | rfl | rfl | rfl
            exacts [h2.1, h2.2.1, h2.2.2.1, h2.2.2.2])
    rw [hfold]
  · -- suitable attains the maximum, excellent and good do not
    simp only [not_and_or, not_le] at h1 h2
    have hgs : g < s := by rcases h2 with h | h | h | h <;> linarith [h3.1, h3.2.1, h3.2.2]
    have hes : e < s := by rcases h1 with h | h | h | h | h <;> linarith [h3.1, h3.2.1, h3.2.2]
    have hv : (0 : ℚ) < s := lt_of_lt_of_le hpos
      (max_le hes.le (max_le hgs.le (max_le le_rfl (max_le h3.1
        (max_le h3.2.1 h3.2.2)))))
    have hfold : List.foldl step (Condition.moderate, 0)
        [(Condition.excellent, e), (Condition.good, g), (Condition.suitable, s),
         (Condition.moderate, m), (Condition.poor, p), (Condition.hazardous, z)] =
        (Condition.suitable, s) :=
      foldl_step_reaches [(Condition.excellent, e), (Condition.good, g)] _
        (Condition.suitable, s) (Condition.moderate, 0)
        (by intro q hq
            simp only [List.mem_cons, List.not_mem_nil, or_false] at hq
            rcases hq with rfl | rfl
            exacts [hes, hgs])
        hv
        (by intro q hq
            simp only [List.mem_cons, List.not_mem_nil, or_false] at hq
            rcases hq with rfl | rfl | rfl
            exacts [h3.1, h3.2.1, h3.2.2])
    rw [hfold]
  · -- moderate attains the maximum, the three earlier labels do not
    simp only [not_and_or, not_le] at h1 h2 h3
    have hsm : s < m := by rcases h3 with h | h | h <;> linarith [h4.1, h4.2]
    have hgm : g < m := by rcases h2 with h | h | h | h <;> linarith [h4.1, h4.2]
    have hem : e < m := by rcases h1 with h | h | h | h | h <;> linarith [h4.1, h4.2]
    have hv : (0 : ℚ) < m := lt_of_lt_of_le hpos
      (max_le hem.le (max_le hgm.le (max_le hsm.le (max_le le_rfl
        (max_le h4.1 h4.2)))))
    have hfold : List.foldl step (Condition.moderate, 0)
        [(Condition.excellent, e), (Condition.good, g), (Condition.suitable, s),
         (Condition.moderate, m), (Condition.poor, p), (Condition.hazardous, z)] =
        (Condition.moderate, m) :=
      foldl_step_reaches
        [(Condition.excellent, e), (Condition.good, g), (Condition.suitable, s)] _
        (Condition.moderate, m) (Condition.moderate, 0)
        (by intro q hq
            simp only [List.mem_cons, List.not_mem_nil, or_false] at hq
            rcases hq with rfl | rfl | rfl
            exacts [hem, hgm, hsm])
        hv
        (by intro q hq
            simp only [List.mem_cons, List.not_mem_nil, or_false] at hq
            rcases hq with rfl | rfl
            exacts [h4.1, h4.2])
    rw [hfold]
  · -- poor attains the maximum, the four earlier labels do not
    simp only [not_and_or, not_le] at h1 h2 h3 h4
    have hmp : m < p := by rcases h4 with h | h <;> linarith
    have hsp : s < p := by rcases h3 with h | h | h <;> linarith
    have hgp : g < p := by rcases h2 with h | h | h | h <;> linarith
    have hep : e < p := by rcases h1 with h | h | h | h | h <;> linarith
    have hv : (0 : ℚ) < p := lt_of_lt_of_le hpos
      (max_le hep.le (max_le hgp.le (max_le hsp.le (max_le hmp.le
        (max_le le_rfl h5)))))
    have hfold : List.foldl step (Condition.moderate, 0)
        [(Condition.excellent, e), (Condition.good, g), (Condition.suitable, s),
         (Condition.moderate, m), (Condition.poor, p), (Condition.hazardous, z)] =
        (Condition.poor, p) :=
      foldl_step_reaches
        [(Condition.excellent, e), (Condition.good, g), (Condition.suitable, s),
         (Condition.moderate, m)] _ (Condition.poor, p) (Condition.moderate, 0)
        (by intro q hq
            simp only [List.mem_cons, List.not_mem_nil, or_false] at hq
            rcases hq with rfl | rfl | rfl | rfl
            exacts [hep, hgp, hsp, hmp])
        hv
        (by intro q hq
            simp only [List.mem_singleton] at hq
            rcases hq with rfl
            exact h5)
    rw [hfold]
  · -- hazardous attains the maximum, every earlier label stays below it
    simp only [not_and_or, not_le] at h1 h2 h3 h4 h5
    have hpz : p < z := h5
    have hmz : m < z := by rcases h4 with h | h <;> linarith
    have hsz : s < z := by rcases h3 with h | h | h <;> linarith
    have hgz : g < z := by rcases h2 with h | h | h | h <;> linarith
    have hez : e < z := by rcases h1 with h | h | h | h | h <;> linarith
    have hv : (0 : ℚ) < z := lt_of_lt_of_le hpos
      (max_le hez.le (max_le hgz.le (max_le hsz.le (max_le hmz.le
        (max_le hpz.le le_rfl)))))
    have hfold : List.foldl step (Condition.moderate, 0)
        [(Condition.excellent, e), (Condition.good, g), (Condition.suitable, s),
         (Condition.moderate, m), (Condition.poor, p), (Condition.hazardous, z)] =
        (Condition.hazardous, z) :=
      foldl_step_reaches
        [(Condition.excellent, e), (Condition.good, g), (Condition.suitable, s),
         (Condition.moderate, m), (Condition.poor, p)] _ (Condition.hazardous, z)
        (Condition.moderate, 0)
        (by intro q hq
            simp only [List.mem_cons, List.not_mem_nil, or_false] at hq
            rcases hq with rfl | rfl | rfl | rfl | rfl
            exacts [hez, hgz, hsz, hmz, hpz])
        hv
        (fun q hq => absurd hq (List.not_mem_nil q))
    rw [hfold]

/-- Witness for C3 amended: on the vector with `good` and `suitable` tied at
the positive maximum 1, the defuzzifier agrees with the earliest-maximal-label
selection (both give `good`). -/
theorem defuzzify_eq_earliestMax_witness :
    defuzzify ⟨0, 1, 1, 0, 0, 0⟩ = earliestMax ⟨0, 1, 1, 0, 0, 0⟩ :=
  defuzzify_eq_earliestMax ⟨0, 1, 1, 0, 0, 0⟩ (by norm_num [maxVal])
